import Mathlib

/-!
Verification of the regional aggregation, percentage normalization and
maturity scoring pipeline of the claudeanalysis repository.

The Python sources are shallowly embedded here:
  * src/regional_aggregation.py        : RegionalAggregator methods
  * src/normalize_regionanalysis.py    : normalize_facet_data, add_normalization_flag
  * src/analysis/ai_maturity/scoring_engine.py : normalize_scores, calculate_maturity_scores

Numeric values are modelled by rationals: the pipeline performs only field
arithmetic on small tables, and exact rational identities imply the stated
floating point tolerances.
-/

/-- Suffix test on strings, the embedding of Python `str.endswith` used by the
pipeline to classify variables (count-like versus percentage-like). -/
def ends_with (s post : String) : Bool :=
  decide (s.data.reverse.take post.data.length = post.data.reverse)

/-- First-occurrence deduplication, the order in which a Python dict built by
insertion enumerates its keys and `list(set(...))` collects distinct elements
(order never matters below, membership does). -/
def pyDedup {α : Type} [DecidableEq α] : List α → List α
  | [] => []
  | x :: xs => x :: (pyDedup xs).filter (fun y => ¬ y = x)

/-- One input row of claude.csv, as read by `RegionalAggregator.load_data`.
Only the columns the aggregator touches are modelled; `value` is numeric. -/
structure Row where
  geo_id : String
  region : String
  facet : String
  level : String
  variable_name : String
  cluster_name : String
  value : ℚ
deriving Repr, DecidableEq

/-- One output row of regionanalysis.csv as produced by the aggregator. -/
structure AggRecord where
  region : String
  facet : String
  level : String
  variable_name : String
  cluster_name : String
  value : ℚ
  calculation_method : String
  contributing_countries : List String
  regional_weight : ℚ
deriving Repr, DecidableEq

/-- Weight lookup: `self.country_weights.get(geo_id, 0)` — countries absent
from the weight table get weight 0. -/
def getW (W : List (String × ℚ)) (g : String) : ℚ :=
  (W.lookup g).getD 0

/-- `region_data` filtered to one facet:
`[row for row in region_data if row['facet'] == facet_name]`. -/
def facetData (region_data : List Row) (facet_name : String) : List Row :=
  region_data.filter (fun r => r.facet = facet_name)

/-- The rows of one `(variable, cluster_name)` aggregation group. -/
def groupRows (facet_rows : List Row) (k : String × String) : List Row :=
  facet_rows.filter (fun r => r.variable_name = k.1 ∧ r.cluster_name = k.2)

/-- The rows of the group whose country has a positive weight; the loop body
`if weight > 0` keeps exactly these. -/
def contribRows (W : List (String × ℚ)) (facet_rows : List Row) (k : String × String) : List Row :=
  (groupRows facet_rows k).filter (fun r => 0 < getW W r.geo_id)

/-- `total_weight = sum(weights)` over the positive-weight rows of the group. -/
def groupTotalWeight (W : List (String × ℚ)) (facet_rows : List Row) (k : String × String) : ℚ :=
  ((contribRows W facet_rows k).map (fun r => getW W r.geo_id)).sum

/-- `sum(val * weight for val, weight in zip(values, weights))` over the
positive-weight rows of the group. -/
def groupWeightedSum (W : List (String × ℚ)) (facet_rows : List Row) (k : String × String) : ℚ :=
  ((contribRows W facet_rows k).map (fun r => r.value * getW W r.geo_id)).sum

/-- `regional_total_weight`: sum of weights over the distinct geo_ids of the
whole region (`list(set(row['geo_id'] for row in region_data))`). -/
def regionalTotalWeight (W : List (String × ℚ)) (region_data : List Row) : ℚ :=
  ((pyDedup (region_data.map (fun r => r.geo_id))).map (getW W)).sum

/-- Body of the per-group loop of `RegionalAggregator.aggregate_weighted_facet`:
returns `none` when the group has no positive-weight country (the Python code
logs a warning and `continue`s), otherwise the emitted record. -/
def aggregateGroup (W : List (String × ℚ)) (region_data facet_rows : List Row)
    (region_name facet_name : String) (k : String × String) : Option AggRecord :=
  if (contribRows W facet_rows k).isEmpty then none
  else
    let total_weight := groupTotalWeight W facet_rows k
    let weighted_avg := groupWeightedSum W facet_rows k / total_weight
    let value :=
      if ends_with k.1 "_count" then
        if 0 < regionalTotalWeight W region_data then
          groupWeightedSum W facet_rows k / regionalTotalWeight W region_data * total_weight
        else weighted_avg
      else weighted_avg
    some {
      region := region_name
      facet := facet_name
      level := ((groupRows facet_rows k).head?.map (fun r => r.level)).getD ""
      variable_name := k.1
      cluster_name := k.2
      value := value
      calculation_method := if ends_with k.1 "_count" then "weighted_sum" else "weighted_average"
      contributing_countries := (contribRows W facet_rows k).map (fun r => r.geo_id)
      regional_weight := groupTotalWeight W facet_rows k }

/-- `RegionalAggregator.aggregate_weighted_facet`: group the facet rows by
`(variable, cluster_name)` and reduce each group; groups without a
positive-weight country are skipped. -/
def aggregate_weighted_facet (W : List (String × ℚ)) (region_data : List Row)
    (region_name facet_name : String) : List AggRecord :=
  let facet_rows := facetData region_data facet_name
  (pyDedup (facet_rows.map (fun r => (r.variable_name, r.cluster_name)))).filterMap
    (aggregateGroup W region_data facet_rows region_name facet_name)

/-- `RegionalAggregator.aggregate_country_facet`: country facet rows are
grouped by variable; only the `usage_count` group emits a record (plain sum,
method `"sum"`). Returns the emitted records together with the regional usage
count that the Python method stores in `self._regional_usage_counts`
(`none` when the early return on empty country facet data fires, in which
case nothing is stored). -/
def aggregate_country_facet (region_data : List Row) (region_name : String) :
    List AggRecord × Option ℚ :=
  let cf := facetData region_data "country"
  if cf.isEmpty then ([], none)
  else
    let var_data := cf.filter (fun r => r.variable_name = "usage_count")
    match var_data with
    | [] => ([], some 0)
    | r0 :: _ =>
      let total_value := (var_data.map (fun r => r.value)).sum
      let contributing := var_data.map (fun r => r.geo_id)
      ([{ region := region_name
          facet := "country"
          level := r0.level
          variable_name := "usage_count"
          cluster_name := ""
          value := total_value
          calculation_method := "sum"
          contributing_countries := contributing
          regional_weight := (contributing.length : ℚ) }], some total_value)

/-- The distinct regions of the loaded data, in the order the per-region
grouping dictionary of `aggregate_by_region` enumerates them (order is
irrelevant to every property proved below). -/
def regionsOf (data : List Row) : List String :=
  pyDedup (data.map (fun r => r.region))

/-- All records a single region contributes before the percentage pass:
country facet, then onet_task, then collaboration. -/
def region_records (W : List (String × ℚ)) (data : List Row) (rn : String) : List AggRecord :=
  let rd := data.filter (fun r => r.region = rn)
  (aggregate_country_facet rd rn).1
    ++ aggregate_weighted_facet W rd rn "onet_task"
    ++ aggregate_weighted_facet W rd rn "collaboration"

/-- The usage count one region stores in `self._regional_usage_counts`. -/
def region_count (data : List Row) (rn : String) : Option ℚ :=
  (aggregate_country_facet (data.filter (fun r => r.region = rn)) rn).2

/-- The concatenation of the per-region record lists, in region order. -/
def allRegionRecords (W : List (String × ℚ)) (data : List Row) : List String → List AggRecord
  | [] => []
  | rn :: rest => region_records W data rn ++ allRegionRecords W data rest

/-- The stored regional usage counts `self._regional_usage_counts`. -/
def allRegionCounts (data : List Row) : List String → List ℚ
  | [] => []
  | rn :: rest =>
    match region_count data rn with
    | none => allRegionCounts data rest
    | some v => v :: allRegionCounts data rest

/-- `RegionalAggregator.calculate_country_facet_percentages`: after all regions
are aggregated, sum the stored regional usage counts; if the global total is
zero, return unchanged, otherwise append one `usage_pct` record per
country-facet `usage_count` record, with value regional/global × 100. -/
def calculate_country_facet_percentages (counts : List ℚ) (results : List AggRecord) :
    List AggRecord :=
  let total := counts.sum
  if total = 0 then results
  else
    results ++ (results.filter
        (fun r => r.facet = "country" ∧ r.variable_name = "usage_count")).map
      (fun r => { r with
        variable_name := "usage_pct"
        value := r.value / total * 100
        calculation_method := "recalculated_percentage"
        regional_weight := r.value })

/-- `RegionalAggregator.aggregate_by_region`: per-region aggregation of the
three facets followed by the global country-facet percentage pass. -/
def aggregate_by_region (W : List (String × ℚ)) (data : List Row) : List AggRecord :=
  calculate_country_facet_percentages (allRegionCounts data (regionsOf data))
    (allRegionRecords W data (regionsOf data))

/-- The regional usage count of one region as a total function (0 when the
region stores none or stores 0). -/
def regional_usage_count (data : List Row) (rn : String) : ℚ :=
  (region_count data rn).getD 0

/-- The global total usage count: sum of the stored per-region counts. -/
def global_usage_total (data : List Row) : ℚ :=
  (allRegionCounts data (regionsOf data)).sum

/-- One row of regionanalysis.csv as seen by src/normalize_regionanalysis.py. -/
structure NRow where
  region : String
  facet : String
  level : String
  variable_name : String
  cluster_name : String
  value : ℚ
deriving Repr, DecidableEq

/-- The sentinel cluster names excluded from normalization:
`cluster_name.isin(['none', 'not_classified'])`. -/
def isSentinel (c : String) : Bool :=
  c = "none" ∨ c = "not_classified"

/-- Membership in the normalization mask of `normalize_facet_data`:
`(df['region'] == region) & (df['facet'] == facet) & (df['variable'].str.endswith('_pct'))`. -/
def inNormGroup (region facet : String) (r : NRow) : Bool :=
  r.region = region ∧ r.facet = facet ∧ ends_with r.variable_name "_pct"

/-- A row the normalizer actually rescales: in the mask and not a sentinel. -/
def isNormTarget (region facet : String) (r : NRow) : Bool :=
  inNormGroup region facet r ∧ ¬ isSentinel r.cluster_name

/-- `original_sum`: sum of the values of the rows to normalize. -/
def originalSum (df : List NRow) (region facet : String) : ℚ :=
  ((df.filter (isNormTarget region facet)).map (fun r => r.value)).sum

/-- `normalize_facet_data(df, region, facet)`: replaces each non-sentinel
percentage value v of the (region, facet) group with v / original_sum × 100;
returns the frame unchanged when the group is empty, all-sentinel, or sums
to zero. -/
def normalize_facet_data (df : List NRow) (region facet : String) : List NRow :=
  let facet_rows := df.filter (inNormGroup region facet)
  if facet_rows.isEmpty then df
  else
    let items := facet_rows.filter (fun r => ¬ isSentinel r.cluster_name)
    if items.isEmpty then df
    else
      let s := (items.map (fun r => r.value)).sum
      if s = 0 then df
      else df.map (fun r =>
        if isNormTarget region facet r then { r with value := r.value / s * 100 } else r)

/-- `add_normalization_flag(df, normalization_targets)`: pairs each row with
its `normalization_applied` flag; the flag is true exactly when some target
(region, facet) matches the row, the variable ends in `_pct` and the cluster
is not a sentinel — independently of whether the value was replaced. -/
def add_normalization_flag (df : List NRow) (targets : List (String × String)) :
    List (NRow × Bool) :=
  df.map (fun r => (r, targets.any (fun t => isNormTarget t.1 t.2 r)))

/-- The normalization loop of `normalize_regionanalysis.main`: fold
`normalize_facet_data` over the target (region, facet) pairs. -/
def run_normalization (df : List NRow) : List (String × String) → List NRow
  | [] => df
  | t :: ts => run_normalization (normalize_facet_data df t.1 t.2) ts

/-- The full normalization pass of `normalize_regionanalysis.main`:
normalize every target group, then add the audit flag column. -/
def normalization_pipeline (df : List NRow) (targets : List (String × String)) :
    List (NRow × Bool) :=
  add_normalization_flag (run_normalization df targets) targets

/-- One row of regional_inputs.csv as consumed by
`scoring_engine.calculate_maturity_scores`. -/
structure InputRow where
  validation_pct : ℚ
  task_iteration_pct : ℚ
  learning_pct : ℚ
  sw_prompt_length : ℚ
  sw_completion_length : ℚ
  sw_cost_index : ℚ
  level0_sw_pct : ℚ
deriving Repr, DecidableEq

/-- The component weight triple of the scoring engine. -/
structure Weights where
  collaboration : ℚ
  efficiency : ℚ
  complexity : ℚ
deriving Repr, DecidableEq

/-- The default used when `calculate_maturity_scores` is called without
weights: `{'collaboration': 0.40, 'efficiency': 0.20, 'complexity': 0.40}`. -/
def defaultWeights : Weights :=
  { collaboration := 2/5, efficiency := 1/5, complexity := 2/5 }

/-- `calculate_collaboration_score`: sum of the three augmentation
percentages. -/
def calculate_collaboration_score (validation_pct task_iteration_pct learning_pct : ℚ) : ℚ :=
  validation_pct + task_iteration_pct + learning_pct

/-- `calculate_efficiency_score`: sum of the three length and cost indices. -/
def calculate_efficiency_score (prompt_length completion_length cost_index : ℚ) : ℚ :=
  prompt_length + completion_length + cost_index

/-- `calculate_complexity_score`: pass-through of the level 0 percentage. -/
def calculate_complexity_score (level0_sw_pct : ℚ) : ℚ :=
  level0_sw_pct

/-- `scores.min()` of a nonempty vector (0 on the empty vector, which numpy
rejects; every property below assumes a nonempty input). -/
def listMin : List ℚ → ℚ
  | [] => 0
  | a :: t => t.foldl min a

/-- `scores.max()` of a nonempty vector. -/
def listMax : List ℚ → ℚ
  | [] => 0
  | a :: t => t.foldl max a

/-- `scoring_engine.normalize_scores`: min-max normalization to the 0 to 100
scale, every entry 50 when max equals min, optionally inverted. -/
def normalize_scores (scores : List ℚ) (invert : Bool) : List ℚ :=
  let mn := listMin scores
  let mx := listMax scores
  if mx = mn then scores.map (fun _ => 50)
  else scores.map (fun x =>
    let n := (x - mn) / (mx - mn) * 100
    if invert then 100 - n else n)

/-- The raw collaboration vector of `calculate_maturity_scores`. -/
def collaboration_raw (data : List InputRow) : List ℚ :=
  data.map (fun r => calculate_collaboration_score r.validation_pct r.task_iteration_pct r.learning_pct)

/-- The raw efficiency vector of `calculate_maturity_scores`. -/
def efficiency_raw (data : List InputRow) : List ℚ :=
  data.map (fun r => calculate_efficiency_score r.sw_prompt_length r.sw_completion_length r.sw_cost_index)

/-- The raw complexity vector of `calculate_maturity_scores`. -/
def complexity_raw (data : List InputRow) : List ℚ :=
  data.map (fun r => calculate_complexity_score r.level0_sw_pct)

/-- Pointwise combination of the three normalized component vectors. -/
def zipWith3 (f : ℚ → ℚ → ℚ → ℚ) : List ℚ → List ℚ → List ℚ → List ℚ
  | a :: as, b :: bs, c :: cs => f a b c :: zipWith3 f as bs cs
  | _, _, _ => []

/-- The output table of `calculate_maturity_scores`: the four score columns
and the rank column. -/
structure ScoreTable where
  collaboration_score : List ℚ
  efficiency_score : List ℚ
  complexity_score : List ℚ
  maturity_score : List ℚ
  maturity_rank : List ℕ
deriving Repr, DecidableEq

/-- `scoring_engine.calculate_maturity_scores`: normalize the three raw
vectors across regions (efficiency inverted), combine them with the weight
triple (the 0.40 / 0.20 / 0.40 default when none is given), and rank the
composite descending with pandas `rank(ascending=False, method='min')`,
embedded as 1 + the number of strictly greater scores. -/
def calculate_maturity_scores (data : List InputRow) (weights : Option Weights) : ScoreTable :=
  let w := weights.getD defaultWeights
  let collab := normalize_scores (collaboration_raw data) false
  let eff := normalize_scores (efficiency_raw data) true
  let compl := normalize_scores (complexity_raw data) false
  let ms := zipWith3
    (fun c e x => w.collaboration * c + w.efficiency * e + w.complexity * x) collab eff compl
  { collaboration_score := collab
    efficiency_score := eff
    complexity_score := compl
    maturity_score := ms
    maturity_rank := List.ofFn (fun i : Fin ms.length => 1 + ms.countP (fun x => ms.get i < x)) }

/-! ### Helper lemmas about the weighted-facet aggregator -/

lemma mem_pyDedup {α : Type} [DecidableEq α] (a : α) :
    ∀ l : List α, a ∈ pyDedup l ↔ a ∈ l := by
  intro l
  induction l with
  | nil => simp [pyDedup]
  | cons x xs ih =>
    by_cases hax : a = x
    · subst hax
      simp [pyDedup]
    · simp [pyDedup, List.mem_filter, hax, ih]

/-- The record emitted for a group with at least one positive-weight country,
spelled out field by field. -/
lemma aggregateGroup_eq_some (W : List (String × ℚ)) (rd fr : List Row) (rn fn : String)
    (k : String × String) (h : (contribRows W fr k).isEmpty = false) :
    aggregateGroup W rd fr rn fn k = some
      { region := rn
        facet := fn
        level := ((groupRows fr k).head?.map (fun r => r.level)).getD ""
        variable_name := k.1
        cluster_name := k.2
        value :=
          if ends_with k.1 "_count" then
            if 0 < regionalTotalWeight W rd then
              groupWeightedSum W fr k / regionalTotalWeight W rd * groupTotalWeight W fr k
            else groupWeightedSum W fr k / groupTotalWeight W fr k
          else groupWeightedSum W fr k / groupTotalWeight W fr k
        calculation_method := if ends_with k.1 "_count" then "weighted_sum" else "weighted_average"
        contributing_countries := (contribRows W fr k).map (fun r => r.geo_id)
        regional_weight := groupTotalWeight W fr k } := by
  rw [aggregateGroup, h]
  rfl

lemma aggregateGroup_eq_none (W : List (String × ℚ)) (rd fr : List Row) (rn fn : String)
    (k : String × String) (h : (contribRows W fr k).isEmpty = true) :
    aggregateGroup W rd fr rn fn k = none := by
  rw [aggregateGroup, h]
  rfl

lemma mem_keys_of_contrib (W : List (String × ℚ)) (fr : List Row) (k : String × String)
    (h : (contribRows W fr k).isEmpty = false) :
    k ∈ pyDedup (fr.map (fun r => (r.variable_name, r.cluster_name))) := by
  rw [List.isEmpty_eq_false] at h
  obtain ⟨r, hr⟩ := List.exists_mem_of_ne_nil _ h
  rw [contribRows] at hr
  have hg := (List.mem_filter.mp hr).1
  rw [groupRows, List.mem_filter] at hg
  obtain ⟨hmem, hkey⟩ := hg
  have hk : (r.variable_name, r.cluster_name) = k := by
    have := of_decide_eq_true hkey
    exact Prod.ext this.1 this.2
  rw [mem_pyDedup, List.mem_map]
  exact ⟨r, hmem, hk⟩

lemma mem_aggregate_weighted_facet (W : List (String × ℚ)) (rd : List Row) (rn fn : String)
    (rec : AggRecord) :
    rec ∈ aggregate_weighted_facet W rd rn fn ↔
      ∃ k ∈ pyDedup ((facetData rd fn).map (fun r => (r.variable_name, r.cluster_name))),
        aggregateGroup W rd (facetData rd fn) rn fn k = some rec := by
  rw [aggregate_weighted_facet]
  exact List.mem_filterMap

/-- Every record the weighted-facet aggregator emits carries the facet name,
the key of its group, and a nonempty positive-weight contributor list. -/
lemma aggregate_weighted_facet_shape (W : List (String × ℚ)) (rd : List Row) (rn fn : String)
    (rec : AggRecord) (h : rec ∈ aggregate_weighted_facet W rd rn fn) :
    rec.facet = fn ∧ rec.region = rn ∧
      (contribRows W (facetData rd fn) (rec.variable_name, rec.cluster_name)).isEmpty = false := by
  rw [mem_aggregate_weighted_facet] at h
  obtain ⟨k, _, hsome⟩ := h
  cases hke : (contribRows W (facetData rd fn) k).isEmpty with
  | true =>
    rw [aggregateGroup_eq_none W rd (facetData rd fn) rn fn k hke] at hsome
    exact absurd hsome (by simp)
  | false =>
    rw [aggregateGroup_eq_some W rd (facetData rd fn) rn fn k hke] at hsome
    have hrec := (Option.some_injective _ hsome).symm
    subst hrec
    exact ⟨rfl, rfl, hke⟩

/-- C1: for every aggregation group of a percentage-like variable (the code
classifies a variable as percentage-like exactly when its name does not end in
`_count`) containing at least one country with positive weight, the emitted
record has value Σ(value_i × weight_i) / Σ(weight_i) over exactly the
positive-weight rows of the group (`groupWeightedSum` and `groupTotalWeight`
range over `contribRows`, the rows whose country weight is positive, so
zero-weight and absent countries enter neither sum), with method
`weighted_average` and the positive-weight countries as provenance. -/
theorem C1_weighted_average_formula (W : List (String × ℚ)) (region_data : List Row)
    (region_name facet_name : String) (k : String × String)
    (hc : (contribRows W (facetData region_data facet_name) k).isEmpty = false)
    (hp : ends_with k.1 "_count" = false) :
    ∃ rec ∈ aggregate_weighted_facet W region_data region_name facet_name,
      rec.variable_name = k.1 ∧ rec.cluster_name = k.2 ∧
      rec.calculation_method = "weighted_average" ∧
      rec.value = groupWeightedSum W (facetData region_data facet_name) k /
        groupTotalWeight W (facetData region_data facet_name) k ∧
      rec.contributing_countries =
        (contribRows W (facetData region_data facet_name) k).map (fun r => r.geo_id) ∧
      rec.regional_weight = groupTotalWeight W (facetData region_data facet_name) k := by
  refine ⟨_, (mem_aggregate_weighted_facet W region_data region_name facet_name _).mpr
    ⟨k, mem_keys_of_contrib W (facetData region_data facet_name) k hc,
      aggregateGroup_eq_some W region_data (facetData region_data facet_name)
        region_name facet_name k hc⟩, ?_⟩
  simp [hp]

/-- Weight table of the concrete aggregation examples (Scenario B of the
spec: weights 1 and 3). -/
def Wex : List (String × ℚ) := [("AA", 1), ("BB", 3)]

/-- Scenario B rows: values 50 and 70 for one percentage group. -/
def rowsScenB : List Row :=
  [{ geo_id := "AA", region := "R", facet := "onet_task", level := "0",
     variable_name := "task_pct", cluster_name := "c", value := 50 },
   { geo_id := "BB", region := "R", facet := "onet_task", level := "0",
     variable_name := "task_pct", cluster_name := "c", value := 70 }]

/-- Witness for C1 at Scenario B: the hypotheses hold at the concrete input
(both countries have positive weight; `task_pct` is percentage-like). -/
theorem C1_witness :
    ∃ rec ∈ aggregate_weighted_facet Wex rowsScenB "R" "onet_task",
      rec.variable_name = "task_pct" ∧ rec.cluster_name = "c" ∧
      rec.calculation_method = "weighted_average" ∧
      rec.value = groupWeightedSum Wex (facetData rowsScenB "onet_task") ("task_pct", "c") /
        groupTotalWeight Wex (facetData rowsScenB "onet_task") ("task_pct", "c") ∧
      rec.contributing_countries =
        (contribRows Wex (facetData rowsScenB "onet_task") ("task_pct", "c")).map
          (fun r => r.geo_id) ∧
      rec.regional_weight =
        groupTotalWeight Wex (facetData rowsScenB "onet_task") ("task_pct", "c") :=
  C1_weighted_average_formula Wex rowsScenB "R" "onet_task" ("task_pct", "c")
    (by decide) (by decide)

/-- C2 (amended): for a group whose contributing countries all have zero or
missing weight, the aggregator emits no record for that group; it does not
raise any error — the Python code logs a warning and continues with the
remaining groups (no `InsufficientWeightError` exists in the source). -/
theorem C2_zero_weight_group_skipped (W : List (String × ℚ)) (rd : List Row)
    (rn fn : String) (k : String × String)
    (hz : (contribRows W (facetData rd fn) k).isEmpty = true) :
    ∀ rec ∈ aggregate_weighted_facet W rd rn fn,
      ¬ (rec.variable_name = k.1 ∧ rec.cluster_name = k.2) := by
  intro rec hrec hkey
  have hk : (rec.variable_name, rec.cluster_name) = k := Prod.ext hkey.1 hkey.2
  have hshape := aggregate_weighted_facet_shape W rd rn fn rec hrec
  rw [hk] at hshape
  rw [hz] at hshape
  exact absurd hshape.2.2 (by simp)

/-- Input for the C2 counterexample: the `x_pct / a` group belongs to country
CC which is absent from the weight table (weight 0), while the `y_pct / b`
group has a positive-weight country. -/
def rowsC2 : List Row :=
  [{ geo_id := "CC", region := "R", facet := "onet_task", level := "0",
     variable_name := "x_pct", cluster_name := "a", value := 10 },
   { geo_id := "BB", region := "R", facet := "onet_task", level := "0",
     variable_name := "y_pct", cluster_name := "b", value := 20 }]

/-- C2 counterexample: a non-empty zero-weight percentage group exists, yet
the aggregator returns normally and still emits output for the other groups —
the run does not abort and no error is raised, contradicting the claim that a
zero-weight group makes the run fail without partial output. -/
theorem C2_counterexample :
    (¬ groupRows (facetData rowsC2 "onet_task") ("x_pct", "a") = []) ∧
    (contribRows Wex (facetData rowsC2 "onet_task") ("x_pct", "a")).isEmpty = true ∧
    (∀ rec ∈ aggregate_weighted_facet Wex rowsC2 "R" "onet_task",
      ¬ (rec.variable_name = "x_pct" ∧ rec.cluster_name = "a")) ∧
    ¬ aggregate_weighted_facet Wex rowsC2 "R" "onet_task" = [] := by
  refine ⟨by decide, by decide, ?_, by decide⟩
  intro rec hrec
  have hshape := aggregate_weighted_facet_shape Wex rowsC2 "R" "onet_task" rec hrec
  intro hkey
  have hk : (rec.variable_name, rec.cluster_name) = ("x_pct", "a") := Prod.ext hkey.1 hkey.2
  rw [hk] at hshape
  have : (contribRows Wex (facetData rowsC2 "onet_task") ("x_pct", "a")).isEmpty = true := by
    decide
  rw [this] at hshape
  exact absurd hshape.2.2 (by simp)

/-- The record the aggregator emits for the positive-weight group
`y_pct / b` of the C2 counterexample input. -/
def recC2 : AggRecord :=
  { region := "R"
    facet := "onet_task"
    level := ((groupRows (facetData rowsC2 "onet_task") ("y_pct", "b")).head?.map
      (fun r => r.level)).getD ""
    variable_name := "y_pct"
    cluster_name := "b"
    value :=
      if ends_with "y_pct" "_count" then
        if 0 < regionalTotalWeight Wex rowsC2 then
          groupWeightedSum Wex (facetData rowsC2 "onet_task") ("y_pct", "b") /
            regionalTotalWeight Wex rowsC2 *
            groupTotalWeight Wex (facetData rowsC2 "onet_task") ("y_pct", "b")
        else groupWeightedSum Wex (facetData rowsC2 "onet_task") ("y_pct", "b") /
          groupTotalWeight Wex (facetData rowsC2 "onet_task") ("y_pct", "b")
      else groupWeightedSum Wex (facetData rowsC2 "onet_task") ("y_pct", "b") /
        groupTotalWeight Wex (facetData rowsC2 "onet_task") ("y_pct", "b")
    calculation_method := if ends_with "y_pct" "_count" then "weighted_sum" else "weighted_average"
    contributing_countries := (contribRows Wex (facetData rowsC2 "onet_task") ("y_pct", "b")).map
      (fun r => r.geo_id)
    regional_weight := groupTotalWeight Wex (facetData rowsC2 "onet_task") ("y_pct", "b") }

/-- Witness for the amended C2 theorem at the concrete counterexample input,
instantiated at the record the aggregator does emit. -/
theorem C2_witness :
    ¬ (recC2.variable_name = "x_pct" ∧ recC2.cluster_name = "a") :=
  C2_zero_weight_group_skipped Wex rowsC2 "R" "onet_task" ("x_pct", "a") (by decide)
    recC2 ((mem_aggregate_weighted_facet Wex rowsC2 "R" "onet_task" recC2).mpr
      ⟨("y_pct", "b"),
        mem_keys_of_contrib Wex (facetData rowsC2 "onet_task") ("y_pct", "b") (by decide),
        aggregateGroup_eq_some Wex rowsC2 (facetData rowsC2 "onet_task") "R" "onet_task"
          ("y_pct", "b") (by decide)⟩)

/-! ### Helper lemmas about the country-facet aggregator -/

lemma aggregate_country_facet_empty (rd : List Row) (rn : String)
    (h : facetData rd "country" = []) :
    aggregate_country_facet rd rn = ([], none) := by
  rw [aggregate_country_facet, h]
  rfl

lemma aggregate_country_facet_no_usage (rd : List Row) (rn : String)
    (h1 : (facetData rd "country").isEmpty = false)
    (h2 : (facetData rd "country").filter (fun r => r.variable_name = "usage_count") = []) :
    aggregate_country_facet rd rn = ([], some 0) := by
  rw [aggregate_country_facet, h1, h2]
  rfl

lemma aggregate_country_facet_usage (rd : List Row) (rn : String) (r0 : Row) (tl : List Row)
    (hvd : (facetData rd "country").filter (fun r => r.variable_name = "usage_count") = r0 :: tl) :
    aggregate_country_facet rd rn =
      ([{ region := rn
          facet := "country"
          level := r0.level
          variable_name := "usage_count"
          cluster_name := ""
          value := (((r0 :: tl) : List Row).map (fun r => r.value)).sum
          calculation_method := "sum"
          contributing_countries := ((r0 :: tl) : List Row).map (fun r => r.geo_id)
          regional_weight := ((((r0 :: tl) : List Row).map (fun r => r.geo_id)).length : ℚ) }],
        some ((((r0 :: tl) : List Row).map (fun r => r.value)).sum)) := by
  have h1 : (facetData rd "country").isEmpty = false := by
    rw [List.isEmpty_eq_false]
    intro h
    rw [h] at hvd
    exact absurd hvd (by simp)
  rw [aggregate_country_facet, h1, hvd]
  rfl

/-- The record of a count-like group in a weighted facet: method
`weighted_sum`, value rescaled by the regional total weight. -/
lemma weighted_sum_record (W : List (String × ℚ)) (rd : List Row) (rn fn : String)
    (k : String × String) (hk : ends_with k.1 "_count" = true)
    (hc : (contribRows W (facetData rd fn) k).isEmpty = false) :
    ∃ rec ∈ aggregate_weighted_facet W rd rn fn,
      rec.variable_name = k.1 ∧ rec.cluster_name = k.2 ∧
      rec.calculation_method = "weighted_sum" ∧
      rec.value = (if 0 < regionalTotalWeight W rd then
          groupWeightedSum W (facetData rd fn) k / regionalTotalWeight W rd *
            groupTotalWeight W (facetData rd fn) k
        else groupWeightedSum W (facetData rd fn) k /
          groupTotalWeight W (facetData rd fn) k) := by
  refine ⟨_, (mem_aggregate_weighted_facet W rd rn fn _).mpr
    ⟨k, mem_keys_of_contrib W (facetData rd fn) k hc,
      aggregateGroup_eq_some W rd (facetData rd fn) rn fn k hc⟩, ?_⟩
  simp [hk]

/-- C7 (amended): count-like variables are plain-summed with method `sum`
only in the country facet (where only `usage_count` produces a record); in
the weighted facets (onet_task, collaboration) a count-like group instead
gets method `weighted_sum` and value Σ(value_i × weight_i) scaled by
Σ(weight_i) / regional_total_weight (the weighted average rescaled), not the
plain sum of the group values. -/
theorem C7_count_aggregation (rdc : List Row) (rnc : String) (r0 : Row) (tl : List Row)
    (hvd : (facetData rdc "country").filter (fun r => r.variable_name = "usage_count") = r0 :: tl)
    (W : List (String × ℚ)) (rd : List Row) (rn fn : String) (k : String × String)
    (hk : ends_with k.1 "_count" = true)
    (hc : (contribRows W (facetData rd fn) k).isEmpty = false) :
    (∃ rec, (aggregate_country_facet rdc rnc).1 = [rec] ∧
      rec.calculation_method = "sum" ∧ rec.variable_name = "usage_count" ∧
      rec.value = (((facetData rdc "country").filter
        (fun r => r.variable_name = "usage_count")).map (fun r => r.value)).sum) ∧
    (∃ rec ∈ aggregate_weighted_facet W rd rn fn,
      rec.variable_name = k.1 ∧ rec.cluster_name = k.2 ∧
      rec.calculation_method = "weighted_sum" ∧
      rec.value = (if 0 < regionalTotalWeight W rd then
          groupWeightedSum W (facetData rd fn) k / regionalTotalWeight W rd *
            groupTotalWeight W (facetData rd fn) k
        else groupWeightedSum W (facetData rd fn) k /
          groupTotalWeight W (facetData rd fn) k)) := by
  constructor
  · refine ⟨_, congrArg Prod.fst (aggregate_country_facet_usage rdc rnc r0 tl hvd), rfl, rfl, ?_⟩
    rw [hvd]
  · exact weighted_sum_record W rd rn fn k hk hc

/-- Input for the C7 counterexample: a count-like variable in the onet_task
facet with values 10 and 20 and weights 1 and 3. -/
def rowsC7 : List Row :=
  [{ geo_id := "AA", region := "R", facet := "onet_task", level := "0",
     variable_name := "x_count", cluster_name := "c", value := 10 },
   { geo_id := "BB", region := "R", facet := "onet_task", level := "0",
     variable_name := "x_count", cluster_name := "c", value := 20 }]

/-- C7 counterexample: in the onet_task facet the record of the count-like
group `x_count / c` has method `weighted_sum`, not `sum`, and value 70
(= (10×1 + 20×3) / 4 × 4), not the plain sum 30 — so the claim that every
count-like group in any facet is plain-summed with method `sum` is false. -/
theorem C7_counterexample :
    ∃ rec ∈ aggregate_weighted_facet Wex rowsC7 "R" "onet_task",
      rec.variable_name = "x_count" ∧
      rec.calculation_method = "weighted_sum" ∧ ¬ rec.calculation_method = "sum" ∧
      rec.value = 70 ∧ ¬ rec.value = 10 + 20 := by
  have hcon : contribRows Wex (facetData rowsC7 "onet_task") ("x_count", "c") =
      facetData rowsC7 "onet_task" := by decide
  have hA : getW Wex "AA" = 1 := by decide
  have hB : getW Wex "BB" = 3 := by decide
  have hgw : groupWeightedSum Wex (facetData rowsC7 "onet_task") ("x_count", "c") = 70 := by
    rw [groupWeightedSum, hcon]
    norm_num [facetData, rowsC7, List.filter, hA, hB]
  have htw : groupTotalWeight Wex (facetData rowsC7 "onet_task") ("x_count", "c") = 4 := by
    rw [groupTotalWeight, hcon]
    norm_num [facetData, rowsC7, List.filter, hA, hB]
  have hrtw : regionalTotalWeight Wex rowsC7 = 4 := by
    have hd : pyDedup (rowsC7.map (fun r => r.geo_id)) = ["AA", "BB"] := by decide
    rw [regionalTotalWeight, hd]
    norm_num [hA, hB]
  obtain ⟨rec, hmem, hv, hcl, hmethod, hval⟩ :=
    weighted_sum_record Wex rowsC7 "R" "onet_task" ("x_count", "c") (by decide) (by decide)
  rw [hgw, htw, hrtw] at hval
  have hval70 : rec.value = 70 := by
    rw [hval]
    norm_num
  exact ⟨rec, hmem, hv, hmethod, by rw [hmethod]; decide, hval70, by rw [hval70]; norm_num⟩

/-- A one-row country facet dataset for the C7 witness. -/
def rowsCountry : List Row :=
  [{ geo_id := "AA", region := "R", facet := "country", level := "1",
     variable_name := "usage_count", cluster_name := "", value := 30 }]

/-- Witness for the amended C7 theorem at concrete inputs. -/
theorem C7_witness :
    (∃ rec, (aggregate_country_facet rowsCountry "R").1 = [rec] ∧
      rec.calculation_method = "sum" ∧ rec.variable_name = "usage_count" ∧
      rec.value = (((facetData rowsCountry "country").filter
        (fun r => r.variable_name = "usage_count")).map (fun r => r.value)).sum) ∧
    (∃ rec ∈ aggregate_weighted_facet Wex rowsC7 "R" "onet_task",
      rec.variable_name = "x_count" ∧ rec.cluster_name = "c" ∧
      rec.calculation_method = "weighted_sum" ∧
      rec.value = (if 0 < regionalTotalWeight Wex rowsC7 then
          groupWeightedSum Wex (facetData rowsC7 "onet_task") ("x_count", "c") /
            regionalTotalWeight Wex rowsC7 *
            groupTotalWeight Wex (facetData rowsC7 "onet_task") ("x_count", "c")
        else groupWeightedSum Wex (facetData rowsC7 "onet_task") ("x_count", "c") /
          groupTotalWeight Wex (facetData rowsC7 "onet_task") ("x_count", "c"))) :=
  C7_count_aggregation rowsCountry "R"
    { geo_id := "AA", region := "R", facet := "country", level := "1",
      variable_name := "usage_count", cluster_name := "", value := 30 } []
    (by decide) Wex rowsC7 "R" "onet_task" ("x_count", "c") (by decide) (by decide)

/-! ### Helper lemmas about the percentage normalizer -/

/-- The value update a normalization pass applies to one row, given the
group sum `s`. -/
def normUpdate (s : ℚ) (region facet : String) (r : NRow) : NRow :=
  if isNormTarget region facet r then { r with value := r.value / s * 100 } else r

/-- The key fields of a normalizer row: everything except the value. -/
def keyOf (r : NRow) : String × String × String × String × String :=
  (r.region, r.facet, r.level, r.variable_name, r.cluster_name)

lemma items_eq (df : List NRow) (region facet : String) :
    (df.filter (inNormGroup region facet)).filter (fun r => ¬ isSentinel r.cluster_name) =
      df.filter (isNormTarget region facet) := by
  rw [List.filter_filter]
  apply List.filter_congr
  intro r _
  cases h1 : inNormGroup region facet r <;> cases h2 : isSentinel r.cluster_name <;>
    simp [isNormTarget, h1, h2]

/-- `normalize_facet_data` either returns the frame unchanged or, when the
non-sentinel group sum is nonzero, maps the value update over the frame. -/
lemma normalize_facet_data_cases (df : List NRow) (region facet : String) :
    normalize_facet_data df region facet = df ∨
      (originalSum df region facet ≠ 0 ∧
        normalize_facet_data df region facet =
          df.map (normUpdate (originalSum df region facet) region facet)) := by
  rw [normalize_facet_data]
  by_cases h1 : (df.filter (inNormGroup region facet)).isEmpty
  · rw [if_pos h1]
    exact Or.inl rfl
  · rw [if_neg h1]
    by_cases h2 : ((df.filter (inNormGroup region facet)).filter
        (fun r => ¬ isSentinel r.cluster_name)).isEmpty
    · rw [if_pos h2]
      exact Or.inl rfl
    · rw [if_neg h2]
      by_cases h3 : (((df.filter (inNormGroup region facet)).filter
          (fun r => ¬ isSentinel r.cluster_name)).map (fun r => r.value)).sum = 0
      · rw [if_pos h3]
        exact Or.inl rfl
      · rw [if_neg h3]
        rw [items_eq] at h3
        refine Or.inr ⟨h3, ?_⟩
        rw [items_eq]
        rfl

/-- When the group sum is nonzero the pass is exactly the value update map. -/
lemma normalize_facet_data_of_sum_ne (df : List NRow) (region facet : String)
    (hS : originalSum df region facet ≠ 0) :
    normalize_facet_data df region facet =
      df.map (normUpdate (originalSum df region facet) region facet) := by
  have hine : df.filter (isNormTarget region facet) ≠ [] := by
    intro hnil
    apply hS
    rw [originalSum, hnil]
    rfl
  have h2 : ((df.filter (inNormGroup region facet)).filter
      (fun r => ¬ isSentinel r.cluster_name)).isEmpty = false := by
    rw [List.isEmpty_eq_false, items_eq]
    exact hine
  have h1 : (df.filter (inNormGroup region facet)).isEmpty = false := by
    rw [List.isEmpty_eq_false]
    intro hnil
    apply hine
    rw [← items_eq, hnil]
    rfl
  have h3 : ¬ (((df.filter (inNormGroup region facet)).filter
      (fun r => ¬ isSentinel r.cluster_name)).map (fun r => r.value)).sum = 0 := by
    rw [items_eq]
    exact hS
  rw [normalize_facet_data]
  simp only [h1, h2, Bool.false_eq_true, if_false]
  rw [if_neg h3]
  rw [items_eq]
  rfl

lemma normUpdate_key (s : ℚ) (region facet : String) (r : NRow) :
    keyOf (normUpdate s region facet r) = keyOf r := by
  rw [normUpdate]
  by_cases h : isNormTarget region facet r
  · rw [if_pos h]
    rfl
  · rw [if_neg h]

lemma isNormTarget_normUpdate (s : ℚ) (region facet a b : String) (r : NRow) :
    isNormTarget a b (normUpdate s region facet r) = isNormTarget a b r := by
  rw [normUpdate]
  by_cases h : isNormTarget region facet r
  · rw [if_pos h]
    simp [isNormTarget, inNormGroup, isSentinel]
  · rw [if_neg h]

/-- After a nonzero-sum pass, the non-sentinel group values sum to exactly
100 (hence to 100 within any floating point tolerance). -/
lemma originalSum_normalize (df : List NRow) (region facet : String)
    (hS : originalSum df region facet ≠ 0) :
    originalSum (normalize_facet_data df region facet) region facet = 100 := by
  rw [normalize_facet_data_of_sum_ne df region facet hS]
  rw [originalSum, List.filter_map]
  have hcomp : (isNormTarget region facet ∘ normUpdate (originalSum df region facet) region facet)
      = isNormTarget region facet := by
    funext r
    exact isNormTarget_normUpdate (originalSum df region facet) region facet region facet r
  rw [hcomp, List.map_map]
  have hmap : (df.filter (isNormTarget region facet)).map
        ((fun r => r.value) ∘ normUpdate (originalSum df region facet) region facet) =
      (df.filter (isNormTarget region facet)).map
        (fun r => r.value * (100 / originalSum df region facet)) := by
    apply List.map_congr_left
    intro r hr
    have ht : isNormTarget region facet r = true := (List.mem_filter.mp hr).2
    show (normUpdate (originalSum df region facet) region facet r).value = _
    rw [normUpdate, if_pos ht]
    show r.value / originalSum df region facet * 100 = _
    ring
  rw [hmap, List.sum_map_mul_right]
  rw [originalSum] at hS ⊢
  field_simp

/-- A pass over a group already summing to 100 is the identity. -/
lemma normalize_id_of_sum_100 (df : List NRow) (region facet : String)
    (h100 : originalSum df region facet = 100) :
    normalize_facet_data df region facet = df := by
  have hS : originalSum df region facet ≠ 0 := by
    rw [h100]
    norm_num
  rw [normalize_facet_data_of_sum_ne df region facet hS, h100]
  have : df.map (normUpdate 100 region facet) = df.map id := by
    apply List.map_congr_left
    intro r _
    rw [normUpdate]
    by_cases ht : isNormTarget region facet r
    · rw [if_pos ht]
      have hv : r.value / 100 * 100 = r.value := div_mul_cancel₀ r.value (by norm_num)
      rw [hv]
      rfl
    · rw [if_neg ht]
      rfl
  rw [this, List.map_id]

/-- C3: whenever the non-sentinel percentage rows of a (region, facet) group
have nonzero sum S, the normalizer maps every non-sentinel group value v to
v / S × 100 and leaves every other row (sentinels included) unchanged, and
afterwards the non-sentinel group values sum to exactly 100. -/
theorem C3_normalization_total (df : List NRow) (region facet : String)
    (hS : originalSum df region facet ≠ 0) :
    normalize_facet_data df region facet =
      df.map (normUpdate (originalSum df region facet) region facet) ∧
    originalSum (normalize_facet_data df region facet) region facet = 100 ∧
    ∀ (i : ℕ) (r : NRow), df[i]? = some r → isNormTarget region facet r = false →
      (normalize_facet_data df region facet)[i]? = some r := by
  refine ⟨normalize_facet_data_of_sum_ne df region facet hS,
    originalSum_normalize df region facet hS, ?_⟩
  intro i r hi ht
  rw [normalize_facet_data_of_sum_ne df region facet hS, List.getElem?_map, hi]
  show some (normUpdate (originalSum df region facet) region facet r) = some r
  rw [normUpdate, if_neg (by rw [ht]; exact Bool.false_ne_true)]

/-- C8: normalization is idempotent — a group already summing to 100 is left
exactly unchanged (so in particular within 1e-9), and a second application
after any nonzero-sum pass is the identity on the frame. -/
theorem C8_normalization_idempotent (df : List NRow) (region facet : String) :
    (originalSum df region facet = 100 → normalize_facet_data df region facet = df) ∧
    (originalSum df region facet ≠ 0 →
      normalize_facet_data (normalize_facet_data df region facet) region facet =
        normalize_facet_data df region facet) := by
  constructor
  · exact normalize_id_of_sum_100 df region facet
  · intro hS
    exact normalize_id_of_sum_100 _ region facet (originalSum_normalize df region facet hS)

/-- Scenario C rows for the C3 and C8 witnesses: clusters A (40) and B (50)
plus a sentinel `none` row (10) in the onet_task facet of region X. -/
def dfScenC : List NRow :=
  [{ region := "X", facet := "onet_task", level := "0", variable_name := "task_pct",
     cluster_name := "A", value := 40 },
   { region := "X", facet := "onet_task", level := "0", variable_name := "task_pct",
     cluster_name := "none", value := 10 },
   { region := "X", facet := "onet_task", level := "0", variable_name := "task_pct",
     cluster_name := "B", value := 50 }]

lemma dfScenC_sum : originalSum dfScenC "X" "onet_task" = 90 := by
  have h : dfScenC.filter (isNormTarget "X" "onet_task") =
      [dfScenC.get ⟨0, by decide⟩, dfScenC.get ⟨2, by decide⟩] := by decide
  rw [originalSum, h]
  show ((40 : ℚ) + (50 + 0)) = 90
  norm_num

/-- Witness for C3 at the Scenario C input (group sum 90 ≠ 0). -/
theorem C3_witness :
    normalize_facet_data dfScenC "X" "onet_task" =
      dfScenC.map (normUpdate (originalSum dfScenC "X" "onet_task") "X" "onet_task") ∧
    originalSum (normalize_facet_data dfScenC "X" "onet_task") "X" "onet_task" = 100 ∧
    ∀ (i : ℕ) (r : NRow), dfScenC[i]? = some r →
      isNormTarget "X" "onet_task" r = false →
      (normalize_facet_data dfScenC "X" "onet_task")[i]? = some r :=
  C3_normalization_total dfScenC "X" "onet_task" (by rw [dfScenC_sum]; norm_num)

/-- A group already summing to 100, for the C8 witness. -/
def dfHundred : List NRow :=
  [{ region := "X", facet := "collaboration", level := "0", variable_name := "collab_pct",
     cluster_name := "A", value := 60 },
   { region := "X", facet := "collaboration", level := "0", variable_name := "collab_pct",
     cluster_name := "B", value := 40 }]

lemma dfHundred_sum : originalSum dfHundred "X" "collaboration" = 100 := by
  have h : dfHundred.filter (isNormTarget "X" "collaboration") = dfHundred := by decide
  rw [originalSum, h]
  show ((60 : ℚ) + (40 + 0)) = 100
  norm_num

/-- Witness for C8: at a group summing to 100 the pass is the identity, and
the double application equals the single one. -/
theorem C8_witness :
    normalize_facet_data dfHundred "X" "collaboration" = dfHundred ∧
    normalize_facet_data (normalize_facet_data dfHundred "X" "collaboration") "X" "collaboration" =
      normalize_facet_data dfHundred "X" "collaboration" :=
  ⟨(C8_normalization_idempotent dfHundred "X" "collaboration").1 dfHundred_sum,
   (C8_normalization_idempotent dfHundred "X" "collaboration").2
     (by rw [dfHundred_sum]; norm_num)⟩

/-! ### C9: the normalization-applied flag -/

lemma normalize_keyOf (df : List NRow) (region facet : String) (i : ℕ) :
    ((normalize_facet_data df region facet)[i]?).map keyOf = (df[i]?).map keyOf := by
  rcases normalize_facet_data_cases df region facet with h | ⟨_, h⟩
  · rw [h]
  · rw [h, List.getElem?_map]
    cases df[i]? with
    | none => rfl
    | some r =>
      show some (keyOf (normUpdate (originalSum df region facet) region facet r)) = some (keyOf r)
      rw [normUpdate_key]

lemma normalize_length (df : List NRow) (region facet : String) :
    (normalize_facet_data df region facet).length = df.length := by
  rcases normalize_facet_data_cases df region facet with h | ⟨_, h⟩
  · rw [h]
  · rw [h, List.length_map]

lemma run_normalization_keyOf (targets : List (String × String)) (df : List NRow) (i : ℕ) :
    ((run_normalization df targets)[i]?).map keyOf = (df[i]?).map keyOf := by
  induction targets generalizing df with
  | nil => rfl
  | cons t ts ih =>
    rw [run_normalization]
    rw [ih (normalize_facet_data df t.1 t.2) ]
    exact normalize_keyOf df t.1 t.2 i

lemma run_normalization_length (targets : List (String × String)) (df : List NRow) :
    (run_normalization df targets).length = df.length := by
  induction targets generalizing df with
  | nil => rfl
  | cons t ts ih =>
    rw [run_normalization, ih, normalize_length]

lemma isNormTarget_congr_keyOf (a b : String) (r s : NRow) (h : keyOf r = keyOf s) :
    isNormTarget a b r = isNormTarget a b s := by
  rw [keyOf, keyOf, Prod.mk.injEq, Prod.mk.injEq, Prod.mk.injEq, Prod.mk.injEq] at h
  obtain ⟨h1, h2, _, h4, h5⟩ := h
  simp [isNormTarget, inNormGroup, isSentinel, h1, h2, h4, h5]

/-- C9 (amended): after the full pass, a row's `normalization_applied` flag is
true exactly when the row is a non-sentinel percentage row of one of the
target (region, facet) groups — the flag is computed from the row's key
fields alone (here: from the original row), regardless of whether the
normalizer actually replaced the row's value; in particular the rows of a
group skipped because its non-sentinel sum was zero are flagged anyway. -/
theorem C9_flag_marks_pattern (df : List NRow) (targets : List (String × String)) :
    (normalization_pipeline df targets).length = df.length ∧
    ∀ i : ℕ, ((normalization_pipeline df targets)[i]?).map (fun p => p.2) =
      (df[i]?).map (fun r => targets.any (fun t => isNormTarget t.1 t.2 r)) := by
  constructor
  · rw [normalization_pipeline, add_normalization_flag, List.length_map,
      run_normalization_length]
  · intro i
    rw [normalization_pipeline, add_normalization_flag, List.getElem?_map]
    have hkey := run_normalization_keyOf targets df i
    cases hr : (run_normalization df targets)[i]? with
    | none =>
      rw [hr] at hkey
      cases hd : df[i]? with
      | none => rfl
      | some r =>
        rw [hd] at hkey
        exact absurd hkey.symm (by simp)
    | some r2 =>
      rw [hr] at hkey
      cases hd : df[i]? with
      | none =>
        rw [hd] at hkey
        exact absurd hkey (by simp)
      | some r =>
        rw [hd] at hkey
        have hk : keyOf r2 = keyOf r := by
          have := hkey
          simp only [Option.map_some] at this
          exact Option.some_injective _ this
        show some (targets.any (fun t => isNormTarget t.1 t.2 r2)) = _
        have : (fun t : String × String => isNormTarget t.1 t.2 r2) =
            (fun t : String × String => isNormTarget t.1 t.2 r) := by
          funext t
          exact isNormTarget_congr_keyOf t.1 t.2 r2 r hk
        rw [this]
        rfl

/-- A target group whose single non-sentinel percentage row has value 0: the
normalizer skips it (sum is zero), yet the flag pass marks the row. -/
def dfZero : List NRow :=
  [{ region := "R", facet := "onet_task", level := "0", variable_name := "task_pct",
     cluster_name := "a", value := 0 }]

/-- C9 counterexample: the zero-sum group's row is left untouched by the
normalizer, but `add_normalization_flag` still flags it as normalized — so
the flag does not mean "the normalizer replaced this value". -/
theorem C9_counterexample :
    normalize_facet_data dfZero "R" "onet_task" = dfZero ∧
    run_normalization dfZero [("R", "onet_task")] = dfZero ∧
    (normalization_pipeline dfZero [("R", "onet_task")]).map (fun p => p.2) = [true] := by
  have hsum : originalSum dfZero "R" "onet_task" = 0 := by
    have h : dfZero.filter (isNormTarget "R" "onet_task") = dfZero := by decide
    rw [originalSum, h]
    show ((0 : ℚ) + 0) = 0
    norm_num
  have hnorm : normalize_facet_data dfZero "R" "onet_task" = dfZero := by
    rcases normalize_facet_data_cases dfZero "R" "onet_task" with h | ⟨hne, _⟩
    · exact h
    · exact absurd hsum hne
  refine ⟨hnorm, ?_, ?_⟩
  · show run_normalization (normalize_facet_data dfZero "R" "onet_task") [] = dfZero
    rw [hnorm]
    rfl
  · rw [normalization_pipeline]
    show (add_normalization_flag
      (run_normalization (normalize_facet_data dfZero "R" "onet_task") []) _).map (fun p => p.2) = [true]
    rw [hnorm]
    decide

/-! ### Helper lemmas about the scoring engine -/

lemma foldl_min_le_init : ∀ (t : List ℚ) (a : ℚ), t.foldl min a ≤ a := by
  intro t
  induction t with
  | nil => intro a; exact le_refl a
  | cons x xs ih =>
    intro a
    exact le_trans (ih (min a x)) (min_le_left a x)

lemma foldl_min_le_mem : ∀ (t : List ℚ) (a x : ℚ), x ∈ t → t.foldl min a ≤ x := by
  intro t
  induction t with
  | nil => intro a x hx; exact absurd hx (by simp)
  | cons y ys ih =>
    intro a x hx
    rcases List.mem_cons.mp hx with h | h
    · subst h
      exact le_trans (foldl_min_le_init ys (min a x)) (min_le_right a x)
    · exact ih (min a y) x h

lemma init_le_foldl_max : ∀ (t : List ℚ) (a : ℚ), a ≤ t.foldl max a := by
  intro t
  induction t with
  | nil => intro a; exact le_refl a
  | cons x xs ih =>
    intro a
    exact le_trans (le_max_left a x) (ih (max a x))

lemma mem_le_foldl_max : ∀ (t : List ℚ) (a x : ℚ), x ∈ t → x ≤ t.foldl max a := by
  intro t
  induction t with
  | nil => intro a x hx; exact absurd hx (by simp)
  | cons y ys ih =>
    intro a x hx
    rcases List.mem_cons.mp hx with h | h
    · subst h
      exact le_trans (le_max_right a x) (init_le_foldl_max ys (max a x))
    · exact ih (max a y) x h

lemma listMin_le (l : List ℚ) (x : ℚ) (hx : x ∈ l) : listMin l ≤ x := by
  cases l with
  | nil => exact absurd hx (by simp)
  | cons a t =>
    rcases List.mem_cons.mp hx with h | h
    · subst h
      exact foldl_min_le_init t x
    · exact foldl_min_le_mem t a x h

lemma le_listMax (l : List ℚ) (x : ℚ) (hx : x ∈ l) : x ≤ listMax l := by
  cases l with
  | nil => exact absurd hx (by simp)
  | cons a t =>
    rcases List.mem_cons.mp hx with h | h
    · subst h
      exact init_le_foldl_max t x
    · exact mem_le_foldl_max t a x h

lemma normalize_scores_length (scores : List ℚ) (invert : Bool) :
    (normalize_scores scores invert).length = scores.length := by
  rw [normalize_scores]
  by_cases h : listMax scores = listMin scores
  · rw [if_pos h, List.length_map]
  · rw [if_neg h, List.length_map]

lemma zipWith3_length (f : ℚ → ℚ → ℚ → ℚ) :
    ∀ (as bs cs : List ℚ), (zipWith3 f as bs cs).length =
      min as.length (min bs.length cs.length) := by
  intro as
  induction as with
  | nil => intro bs cs; simp [zipWith3]
  | cons a at' ih =>
    intro bs cs
    cases bs with
    | nil => simp [zipWith3]
    | cons b bt =>
      cases cs with
      | nil => simp [zipWith3]
      | cons c ct =>
        rw [zipWith3]
        simp only [List.length_cons, ih]
        omega

lemma zipWith3_getD (f : ℚ → ℚ → ℚ → ℚ) :
    ∀ (as bs cs : List ℚ) (i : ℕ), i < as.length → i < bs.length → i < cs.length →
      (zipWith3 f as bs cs).getD i 0 = f (as.getD i 0) (bs.getD i 0) (cs.getD i 0) := by
  intro as
  induction as with
  | nil => intro bs cs i hi; simp at hi
  | cons a at' ih =>
    intro bs cs i hia hib hic
    cases bs with
    | nil => simp at hib
    | cons b bt =>
      cases cs with
      | nil => simp at hic
      | cons c ct =>
        cases i with
        | zero => rfl
        | succ n =>
          rw [zipWith3]
          show (zipWith3 f at' bt ct).getD n 0 = _
          rw [ih bt ct n (by simpa using hia) (by simpa using hib) (by simpa using hic)]
          rfl

lemma collaboration_score_eq (data : List InputRow) (w : Option Weights) :
    (calculate_maturity_scores data w).collaboration_score =
      normalize_scores (collaboration_raw data) false := rfl

lemma efficiency_score_eq (data : List InputRow) (w : Option Weights) :
    (calculate_maturity_scores data w).efficiency_score =
      normalize_scores (efficiency_raw data) true := rfl

lemma complexity_score_eq (data : List InputRow) (w : Option Weights) :
    (calculate_maturity_scores data w).complexity_score =
      normalize_scores (complexity_raw data) false := rfl

lemma maturity_score_eq (data : List InputRow) (w : Option Weights) :
    (calculate_maturity_scores data w).maturity_score =
      zipWith3 (fun c e x => (w.getD defaultWeights).collaboration * c +
          (w.getD defaultWeights).efficiency * e + (w.getD defaultWeights).complexity * x)
        (normalize_scores (collaboration_raw data) false)
        (normalize_scores (efficiency_raw data) true)
        (normalize_scores (complexity_raw data) false) := rfl

lemma maturity_score_length (data : List InputRow) (w : Option Weights) :
    (calculate_maturity_scores data w).maturity_score.length = data.length := by
  rw [maturity_score_eq, zipWith3_length]
  rw [normalize_scores_length, normalize_scores_length, normalize_scores_length]
  rw [collaboration_raw, efficiency_raw, complexity_raw]
  simp [List.length_map]

/-- C4: min-max normalization maps every raw vector into [0, 100] by
(raw − min) / (max − min) × 100 (inverted: 100 minus that); the minimum raw
value receives exactly 0 (100 when inverted), the maximum exactly 100 (0 when
inverted), and when max = min every entry is exactly 50. -/
theorem C4_minmax_bounds (scores : List ℚ) (invert : Bool) :
    (normalize_scores scores invert).length = scores.length ∧
    (∀ y ∈ normalize_scores scores invert, 0 ≤ y ∧ y ≤ 100) ∧
    (listMax scores = listMin scores → ∀ y ∈ normalize_scores scores invert, y = 50) ∧
    (¬ listMax scores = listMin scores →
      ∀ (i : ℕ) (h : i < scores.length),
        (normalize_scores scores invert)[i]? = some (
          if invert then
            100 - (scores.get ⟨i, h⟩ - listMin scores) / (listMax scores - listMin scores) * 100
          else (scores.get ⟨i, h⟩ - listMin scores) / (listMax scores - listMin scores) * 100) ∧
        (scores.get ⟨i, h⟩ = listMin scores →
          (normalize_scores scores invert)[i]? = some (if invert then 100 else 0)) ∧
        (scores.get ⟨i, h⟩ = listMax scores →
          (normalize_scores scores invert)[i]? = some (if invert then 0 else 100))) := by
  refine ⟨normalize_scores_length scores invert, ?_, ?_, ?_⟩
  · intro y hy
    rw [normalize_scores] at hy
    by_cases heq : listMax scores = listMin scores
    · rw [if_pos heq] at hy
      obtain ⟨x, _, hxy⟩ := List.mem_map.mp hy
      rw [← hxy]
      norm_num
    · rw [if_neg heq] at hy
      obtain ⟨x, hx, hxy⟩ := List.mem_map.mp hy
      have hmn : listMin scores ≤ x := listMin_le scores x hx
      have hmx : x ≤ listMax scores := le_listMax scores x hx
      have hpos : 0 < listMax scores - listMin scores := by
        have hle : listMin scores ≤ listMax scores := le_trans hmn hmx
        rcases lt_or_eq_of_le hle with hlt | he
        · linarith
        · exact absurd he.symm heq
      have hfrac0 : 0 ≤ (x - listMin scores) / (listMax scores - listMin scores) :=
        div_nonneg (by linarith) (le_of_lt hpos)
      have hfrac1 : (x - listMin scores) / (listMax scores - listMin scores) ≤ 1 :=
        (div_le_one hpos).mpr (by linarith)
      rw [← hxy]
      cases invert with
      | false =>
        simp only [Bool.false_eq_true, if_false]
        constructor
        · positivity
        · nlinarith
      | true =>
        simp only [if_true]
        constructor
        · nlinarith
        · nlinarith
  · intro heq y hy
    rw [normalize_scores, if_pos heq] at hy
    obtain ⟨x, _, hxy⟩ := List.mem_map.mp hy
    exact hxy.symm
  · intro hne i h
    have hlt : i < (scores.map (fun x =>
        if invert then 100 - (x - listMin scores) / (listMax scores - listMin scores) * 100
        else (x - listMin scores) / (listMax scores - listMin scores) * 100)).length := by
      rw [List.length_map]
      exact h
    have hget : (normalize_scores scores invert)[i]? = some (
        if invert then
          100 - (scores.get ⟨i, h⟩ - listMin scores) / (listMax scores - listMin scores) * 100
        else (scores.get ⟨i, h⟩ - listMin scores) / (listMax scores - listMin scores) * 100) := by
      rw [normalize_scores, if_neg hne, List.getElem?_map]
      rw [List.getElem?_eq_getElem h]
      cases invert <;> rfl
    refine ⟨hget, ?_, ?_⟩
    · intro hmin
      rw [hget, hmin]
      have : (listMin scores - listMin scores) / (listMax scores - listMin scores) * 100 = 0 := by
        rw [sub_self, zero_div, zero_mul]
      rw [this]
      cases invert <;> norm_num
    · intro hmax
      rw [hget, hmax]
      have hd : listMax scores - listMin scores ≠ 0 := sub_ne_zero_of_ne hne
      have : (listMax scores - listMin scores) / (listMax scores - listMin scores) * 100 = 100 := by
        rw [div_self hd, one_mul]
      rw [this]
      cases invert <;> norm_num

/-- Scenario A of the spec: raw vector [10, 20, 30]. -/
def scenA : List ℚ := [10, 20, 30]

lemma scenA_minmax : listMin scenA = 10 ∧ listMax scenA = 30 := by
  constructor
  · show min (min (10 : ℚ) 20) 30 = 10
    norm_num [min_def]
  · show max (max (10 : ℚ) 20) 30 = 30
    norm_num [max_def]

/-- Witness for C4 at Scenario A: normalized endpoints are exactly 0 and 100
and every entry lies in [0, 100]. -/
theorem C4_witness :
    (∀ y ∈ normalize_scores scenA false, 0 ≤ y ∧ y ≤ 100) ∧
    (normalize_scores scenA false)[0]? = some 0 ∧
    (normalize_scores scenA false)[2]? = some 100 := by
  have h := C4_minmax_bounds scenA false
  have hne : ¬ listMax scenA = listMin scenA := by
    rw [scenA_minmax.1, scenA_minmax.2]
    norm_num
  have h0 := (h.2.2.2 hne 0 (by decide)).2.1
  have h2 := (h.2.2.2 hne 2 (by decide)).2.2
  refine ⟨h.2.1, ?_, ?_⟩
  · have := h0 (by rw [scenA_minmax.1]; rfl)
    simpa using this
  · have := h2 (by rw [scenA_minmax.2]; rfl)
    simpa using this

/-! ### C5: the descending min-method rank -/

lemma countP_lt_length {α : Type} (p : α → Bool) (l : List α) (a : α)
    (ha : a ∈ l) (hpa : p a = false) : l.countP p < l.length := by
  rcases lt_or_eq_of_le (List.countP_le_length p (l := l)) with h | h
  · exact h
  · exfalso
    have := List.countP_eq_length.mp h a ha
    rw [hpa] at this
    exact Bool.false_ne_true this

lemma countP_strict {α : Type} (p q : α → Bool) :
    ∀ (l : List α), (∀ x ∈ l, p x = true → q x = true) →
      ∀ a ∈ l, q a = true → p a = false → l.countP p < l.countP q := by
  intro l
  induction l with
  | nil => intro _ a ha; exact absurd ha (by simp)
  | cons x xs ih =>
    intro hpq a ha hqa hpa
    have hpq' : ∀ y ∈ xs, p y = true → q y = true := fun y hy => hpq y (List.mem_cons_of_mem x hy)
    rcases List.mem_cons.mp ha with h | h
    · subst h
      rw [List.countP_cons_of_neg _ _ (by rw [hpa]; exact Bool.false_ne_true),
        List.countP_cons_of_pos _ _ hqa]
      exact Nat.lt_succ_of_le (List.countP_mono_left hpq')
    · have hlt := ih hpq' a h hqa hpa
      by_cases hpx : p x = true
      · rw [List.countP_cons_of_pos _ _ hpx, List.countP_cons_of_pos _ _ (hpq x (List.mem_cons_self x xs) hpx)]
        exact Nat.succ_lt_succ hlt
      · rw [List.countP_cons_of_neg _ _ hpx]
        by_cases hqx : q x = true
        · rw [List.countP_cons_of_pos _ _ hqx]
          exact Nat.lt_succ_of_lt hlt
        · rw [List.countP_cons_of_neg _ _ hqx]
          exact hlt

lemma maturity_rank_eq (data : List InputRow) (w : Option Weights) :
    (calculate_maturity_scores data w).maturity_rank =
      List.ofFn (fun i : Fin (calculate_maturity_scores data w).maturity_score.length =>
        1 + (calculate_maturity_scores data w).maturity_score.countP
          (fun x => (calculate_maturity_scores data w).maturity_score.get i < x)) := rfl

lemma maturity_rank_getD (data : List InputRow) (w : Option Weights) (i : ℕ)
    (hi : i < (calculate_maturity_scores data w).maturity_score.length) :
    (calculate_maturity_scores data w).maturity_rank.getD i 0 =
      1 + (calculate_maturity_scores data w).maturity_score.countP
        (fun x => (calculate_maturity_scores data w).maturity_score.get ⟨i, hi⟩ < x) := by
  rw [maturity_rank_eq]
  rw [List.getD_eq_get _ _ (by rw [List.length_ofFn]; exact hi)]
  rw [List.get_ofFn]
  rfl

/-- C5: `maturity_rank` is the descending min-method rank of
`maturity_score`: every rank lies in {1..N}, a strictly greater score gets a
strictly smaller rank number, tied scores get the identical rank, and each
rank equals 1 plus the number of strictly greater scores (the smallest
position the region would occupy), so two regions tied for best both get
rank 1 and the next distinct region gets rank 3. -/
theorem C5_rank_consistency (data : List InputRow) (w : Option Weights) (i j : ℕ)
    (hi : i < (calculate_maturity_scores data w).maturity_score.length)
    (hj : j < (calculate_maturity_scores data w).maturity_score.length) :
    (calculate_maturity_scores data w).maturity_rank.length =
      (calculate_maturity_scores data w).maturity_score.length ∧
    (∀ rk ∈ (calculate_maturity_scores data w).maturity_rank,
      1 ≤ rk ∧ rk ≤ (calculate_maturity_scores data w).maturity_score.length) ∧
    ((calculate_maturity_scores data w).maturity_score.get ⟨j, hj⟩ <
        (calculate_maturity_scores data w).maturity_score.get ⟨i, hi⟩ →
      (calculate_maturity_scores data w).maturity_rank.getD i 0 <
        (calculate_maturity_scores data w).maturity_rank.getD j 0) ∧
    ((calculate_maturity_scores data w).maturity_score.get ⟨i, hi⟩ =
        (calculate_maturity_scores data w).maturity_score.get ⟨j, hj⟩ →
      (calculate_maturity_scores data w).maturity_rank.getD i 0 =
        (calculate_maturity_scores data w).maturity_rank.getD j 0) ∧
    (calculate_maturity_scores data w).maturity_rank.getD i 0 =
      1 + (calculate_maturity_scores data w).maturity_score.countP
        (fun x => (calculate_maturity_scores data w).maturity_score.get ⟨i, hi⟩ < x) := by
  refine ⟨by rw [maturity_rank_eq, List.length_ofFn], ?_, ?_, ?_,
    maturity_rank_getD data w i hi⟩
  · intro rk hrk
    rw [maturity_rank_eq] at hrk
    obtain ⟨idx, hidx⟩ := (List.mem_ofFn _ _).mp hrk
    have hidx' : 1 + (calculate_maturity_scores data w).maturity_score.countP
        (fun x => (calculate_maturity_scores data w).maturity_score.get idx < x) = rk := hidx
    have hlt := countP_lt_length
      (fun x => decide ((calculate_maturity_scores data w).maturity_score.get idx < x))
      ((calculate_maturity_scores data w).maturity_score)
      ((calculate_maturity_scores data w).maturity_score.get idx)
      (List.get_mem _ _ _) (by simp)
    constructor
    · omega
    · omega
  · intro hij
    rw [maturity_rank_getD data w i hi, maturity_rank_getD data w j hj]
    have := countP_strict
      (fun x => decide ((calculate_maturity_scores data w).maturity_score.get ⟨i, hi⟩ < x))
      (fun x => decide ((calculate_maturity_scores data w).maturity_score.get ⟨j, hj⟩ < x))
      ((calculate_maturity_scores data w).maturity_score)
      (by
        intro x _ hx
        rw [decide_eq_true_eq] at hx
        rw [decide_eq_true_eq]
        exact lt_trans hij hx)
      ((calculate_maturity_scores data w).maturity_score.get ⟨i, hi⟩)
      (List.get_mem _ _ _)
      (by rw [decide_eq_true_eq]; exact hij)
      (by simp)
    omega
  · intro hij
    rw [maturity_rank_getD data w i hi, maturity_rank_getD data w j hj, hij]

/-- Concrete three-region table for the C5 witness: two regions tie on every
input (hence on the maturity score) and the third differs. -/
def dataC5 : List InputRow :=
  [{ validation_pct := 10, task_iteration_pct := 5, learning_pct := 5,
     sw_prompt_length := 1, sw_completion_length := 1, sw_cost_index := 1,
     level0_sw_pct := 30 },
   { validation_pct := 10, task_iteration_pct := 5, learning_pct := 5,
     sw_prompt_length := 1, sw_completion_length := 1, sw_cost_index := 1,
     level0_sw_pct := 30 },
   { validation_pct := 30, task_iteration_pct := 10, learning_pct := 10,
     sw_prompt_length := 2, sw_completion_length := 2, sw_cost_index := 2,
     level0_sw_pct := 60 }]

/-- Witness for C5 at the concrete table, indices 0 and 1. -/
theorem C5_witness :
    (calculate_maturity_scores dataC5 none).maturity_rank.length =
      (calculate_maturity_scores dataC5 none).maturity_score.length ∧
    (∀ rk ∈ (calculate_maturity_scores dataC5 none).maturity_rank,
      1 ≤ rk ∧ rk ≤ (calculate_maturity_scores dataC5 none).maturity_score.length) ∧
    ((calculate_maturity_scores dataC5 none).maturity_score.get
        ⟨1, by rw [maturity_score_length]; norm_num [dataC5]⟩ <
        (calculate_maturity_scores dataC5 none).maturity_score.get
        ⟨0, by rw [maturity_score_length]; norm_num [dataC5]⟩ →
      (calculate_maturity_scores dataC5 none).maturity_rank.getD 0 0 <
        (calculate_maturity_scores dataC5 none).maturity_rank.getD 1 0) ∧
    ((calculate_maturity_scores dataC5 none).maturity_score.get
        ⟨0, by rw [maturity_score_length]; norm_num [dataC5]⟩ =
        (calculate_maturity_scores dataC5 none).maturity_score.get
        ⟨1, by rw [maturity_score_length]; norm_num [dataC5]⟩ →
      (calculate_maturity_scores dataC5 none).maturity_rank.getD 0 0 =
        (calculate_maturity_scores dataC5 none).maturity_rank.getD 1 0) ∧
    (calculate_maturity_scores dataC5 none).maturity_rank.getD 0 0 =
      1 + (calculate_maturity_scores dataC5 none).maturity_score.countP
        (fun x => (calculate_maturity_scores dataC5 none).maturity_score.get
          ⟨0, by rw [maturity_score_length]; norm_num [dataC5]⟩ < x) :=
  C5_rank_consistency dataC5 none 0 1
    (by rw [maturity_score_length]; norm_num [dataC5])
    (by rw [maturity_score_length]; norm_num [dataC5])

/-- C10: called without a weights argument, `calculate_maturity_scores` uses
the default triple {collaboration 0.40, efficiency 0.20, complexity 0.40}
(2/5, 1/5, 2/5 as rationals): every region's maturity score is
0.40 × collaboration + 0.20 × efficiency + 0.40 × complexity of its
normalized component scores — not the 0.25 / 0.25 / 0.50 split the
docstring and module header state. -/
theorem C10_default_weights (data : List InputRow) (i : ℕ) (hi : i < data.length) :
    defaultWeights = { collaboration := 2/5, efficiency := 1/5, complexity := 2/5 } ∧
    calculate_maturity_scores data none =
      calculate_maturity_scores data
        (some { collaboration := 2/5, efficiency := 1/5, complexity := 2/5 }) ∧
    (calculate_maturity_scores data none).maturity_score.getD i 0 =
      2/5 * (calculate_maturity_scores data none).collaboration_score.getD i 0 +
      1/5 * (calculate_maturity_scores data none).efficiency_score.getD i 0 +
      2/5 * (calculate_maturity_scores data none).complexity_score.getD i 0 ∧
    ¬ defaultWeights = { collaboration := 1/4, efficiency := 1/4, complexity := 1/2 } := by
  refine ⟨rfl, rfl, ?_, ?_⟩
  · rw [maturity_score_eq, collaboration_score_eq, efficiency_score_eq, complexity_score_eq]
    rw [zipWith3_getD _ _ _ _ i
      (by rw [normalize_scores_length, collaboration_raw, List.length_map]; exact hi)
      (by rw [normalize_scores_length, efficiency_raw, List.length_map]; exact hi)
      (by rw [normalize_scores_length, complexity_raw, List.length_map]; exact hi)]
    rfl
  · intro h
    have hc : defaultWeights.collaboration = (1 : ℚ)/4 := by rw [h]
    rw [defaultWeights] at hc
    norm_num at hc

/-- A one-region table for the C10 witness. -/
def dataOne : List InputRow :=
  [{ validation_pct := 10, task_iteration_pct := 5, learning_pct := 5,
     sw_prompt_length := 1, sw_completion_length := 1, sw_cost_index := 1,
     level0_sw_pct := 30 }]

/-- Witness for C10 at the one-region table, index 0. -/
theorem C10_witness :
    defaultWeights = { collaboration := 2/5, efficiency := 1/5, complexity := 2/5 } ∧
    calculate_maturity_scores dataOne none =
      calculate_maturity_scores dataOne
        (some { collaboration := 2/5, efficiency := 1/5, complexity := 2/5 }) ∧
    (calculate_maturity_scores dataOne none).maturity_score.getD 0 0 =
      2/5 * (calculate_maturity_scores dataOne none).collaboration_score.getD 0 0 +
      1/5 * (calculate_maturity_scores dataOne none).efficiency_score.getD 0 0 +
      2/5 * (calculate_maturity_scores dataOne none).complexity_score.getD 0 0 ∧
    ¬ defaultWeights = { collaboration := 1/4, efficiency := 1/4, complexity := 1/2 } :=
  C10_default_weights dataOne 0 (by norm_num [dataOne])

/-! ### C6: the global country-facet percentage pass -/

lemma aggregate_country_facet_cases (rd : List Row) (rn : String) :
    aggregate_country_facet rd rn = ([], none) ∨
    aggregate_country_facet rd rn = ([], some 0) ∨
    ∃ (r0 : Row) (tl : List Row),
      (facetData rd "country").filter (fun r => r.variable_name = "usage_count") = r0 :: tl ∧
      aggregate_country_facet rd rn =
        ([{ region := rn
            facet := "country"
            level := r0.level
            variable_name := "usage_count"
            cluster_name := ""
            value := (((r0 :: tl) : List Row).map (fun r => r.value)).sum
            calculation_method := "sum"
            contributing_countries := ((r0 :: tl) : List Row).map (fun r => r.geo_id)
            regional_weight :=
              ((((r0 :: tl) : List Row).map (fun r => r.geo_id)).length : ℚ) }],
          some ((((r0 :: tl) : List Row).map (fun r => r.value)).sum)) := by
  by_cases he : (facetData rd "country").isEmpty
  · left
    exact aggregate_country_facet_empty rd rn (List.isEmpty_iff.mp he)
  · cases hvd : (facetData rd "country").filter (fun r => r.variable_name = "usage_count") with
    | nil =>
      right; left
      exact aggregate_country_facet_no_usage rd rn (Bool.eq_false_iff.mpr he) hvd
    | cons r0 tl =>
      right; right
      exact ⟨r0, tl, rfl, aggregate_country_facet_usage rd rn r0 tl hvd⟩

/-- Every record the country-facet aggregator emits is the `usage_count`
record of its region, and its value is the stored regional count. -/
lemma country_records_cu (rd : List Row) (rn : String) :
    ∀ rec ∈ (aggregate_country_facet rd rn).1,
      rec.facet = "country" ∧ rec.variable_name = "usage_count" ∧ rec.region = rn ∧
      (aggregate_country_facet rd rn).2 = some rec.value := by
  rcases aggregate_country_facet_cases rd rn with h | h | ⟨r0, tl, _, h⟩ <;> rw [h]
  · intro rec hrec
    exact absurd hrec (by simp)
  · intro rec hrec
    exact absurd hrec (by simp)
  · intro rec hrec
    rw [List.mem_singleton] at hrec
    subst hrec
    exact ⟨rfl, rfl, rfl, rfl⟩

/-- The country-usage filter of one region's records keeps exactly the
country-facet records, and their value total is the stored regional count. -/
lemma region_filter_cu (W : List (String × ℚ)) (data : List Row) (rn : String) :
    (region_records W data rn).filter
        (fun r => r.facet = "country" ∧ r.variable_name = "usage_count") =
      (aggregate_country_facet (data.filter (fun r => r.region = rn)) rn).1 := by
  rw [region_records]
  rw [List.filter_append, List.filter_append]
  have honet : (aggregate_weighted_facet W (data.filter (fun r => r.region = rn)) rn
      "onet_task").filter
      (fun r => r.facet = "country" ∧ r.variable_name = "usage_count") = [] := by
    rw [List.filter_eq_nil_iff]
    intro rec hrec
    have hf := (aggregate_weighted_facet_shape W _ rn "onet_task" rec hrec).1
    simp [hf]
  have hcol : (aggregate_weighted_facet W (data.filter (fun r => r.region = rn)) rn
      "collaboration").filter
      (fun r => r.facet = "country" ∧ r.variable_name = "usage_count") = [] := by
    rw [List.filter_eq_nil_iff]
    intro rec hrec
    have hf := (aggregate_weighted_facet_shape W _ rn "collaboration" rec hrec).1
    simp [hf]
  have hcf : ((aggregate_country_facet (data.filter (fun r => r.region = rn)) rn).1).filter
      (fun r => r.facet = "country" ∧ r.variable_name = "usage_count") =
      (aggregate_country_facet (data.filter (fun r => r.region = rn)) rn).1 := by
    rw [List.filter_eq_self]
    intro rec hrec
    have h := country_records_cu _ rn rec hrec
    simp [h.1, h.2.1]
  rw [honet, hcol, hcf, List.append_nil, List.append_nil]

/-- The value total of one region's country-usage records is the stored
regional usage count. -/
lemma region_cu_sum (W : List (String × ℚ)) (data : List Row) (rn : String) :
    ((((region_records W data rn).filter
        (fun r => r.facet = "country" ∧ r.variable_name = "usage_count")).map
      (fun r => r.value)).sum) = regional_usage_count data rn := by
  rw [region_filter_cu, regional_usage_count, region_count]
  rcases aggregate_country_facet_cases (data.filter (fun r => r.region = rn)) rn with
    h | h | ⟨r0, tl, _, h⟩ <;> rw [h]
  · show (0 : ℚ) = (none : Option ℚ).getD 0
    rfl
  · show (0 : ℚ) = (some (0 : ℚ)).getD 0
    rfl
  · show ((((r0 :: tl) : List Row).map (fun r => r.value)).sum + 0) = _
    rw [add_zero]
    rfl

lemma counts_sum_eq (data : List Row) :
    ∀ rs : List String, (allRegionCounts data rs).sum =
      (rs.map (regional_usage_count data)).sum := by
  intro rs
  induction rs with
  | nil => rfl
  | cons rn rest ih =>
    show (match region_count data rn with
      | none => allRegionCounts data rest
      | some v => v :: allRegionCounts data rest).sum = _
    cases hc : region_count data rn with
    | none =>
      rw [List.map_cons, List.sum_cons, ih]
      have : regional_usage_count data rn = 0 := by
        rw [regional_usage_count, hc]
        rfl
      rw [this, zero_add]
    | some v =>
      rw [List.sum_cons, List.map_cons, List.sum_cons, ih]
      have : regional_usage_count data rn = v := by
        rw [regional_usage_count, hc]
        rfl
      rw [this]

lemma all_cu_sum (W : List (String × ℚ)) (data : List Row) :
    ∀ rs : List String,
      ((((allRegionRecords W data rs).filter
          (fun r => r.facet = "country" ∧ r.variable_name = "usage_count")).map
        (fun r => r.value)).sum) = (rs.map (regional_usage_count data)).sum := by
  intro rs
  induction rs with
  | nil => rfl
  | cons rn rest ih =>
    show ((((region_records W data rn ++ allRegionRecords W data rest).filter _).map _).sum) = _
    rw [List.filter_append, List.map_append, List.sum_append, ih, region_cu_sum,
      List.map_cons, List.sum_cons]

lemma all_cu_mem (W : List (String × ℚ)) (data : List Row) :
    ∀ rs : List String,
      ∀ rec ∈ (allRegionRecords W data rs).filter
        (fun r => r.facet = "country" ∧ r.variable_name = "usage_count"),
        rec.value = regional_usage_count data rec.region := by
  intro rs
  induction rs with
  | nil => intro rec hrec; exact absurd hrec (by simp [allRegionRecords])
  | cons rn rest ih =>
    intro rec hrec
    rw [show allRegionRecords W data (rn :: rest) =
      region_records W data rn ++ allRegionRecords W data rest from rfl,
      List.filter_append, List.mem_append] at hrec
    rcases hrec with h | h
    · rw [region_filter_cu] at h
      have hc := country_records_cu (data.filter (fun r => r.region = rn)) rn rec h
      rw [hc.2.2.1, regional_usage_count]
      rw [show region_count data rn =
        (aggregate_country_facet (data.filter (fun r => r.region = rn)) rn).2 from rfl]
      rw [hc.2.2.2]
      rfl
    · exact ih rec h

lemma all_no_pct (W : List (String × ℚ)) (data : List Row) :
    ∀ rs : List String, ∀ rec ∈ allRegionRecords W data rs,
      ¬ (rec.facet = "country" ∧ rec.variable_name = "usage_pct") := by
  intro rs
  induction rs with
  | nil => intro rec hrec; exact absurd hrec (by simp [allRegionRecords])
  | cons rn rest ih =>
    intro rec hrec
    rw [show allRegionRecords W data (rn :: rest) =
      region_records W data rn ++ allRegionRecords W data rest from rfl,
      List.mem_append] at hrec
    rcases hrec with h | h
    · rw [region_records, List.mem_append, List.mem_append] at h
      rcases h with (h | h) | h
      · intro hpct
        have hc := country_records_cu (data.filter (fun r => r.region = rn)) rn rec h
        rw [hc.2.1] at hpct
        exact absurd hpct.2 (by decide)
      · intro hpct
        have hf := (aggregate_weighted_facet_shape W _ rn "onet_task" rec h).1
        rw [hf] at hpct
        exact absurd hpct.1 (by decide)
      · intro hpct
        have hf := (aggregate_weighted_facet_shape W _ rn "collaboration" rec h).1
        rw [hf] at hpct
        exact absurd hpct.1 (by decide)
    · exact ih rec h

/-- C6: the region-share `usage_pct` records of the country facet are
produced by the second pass from the complete per-region usage counts: each
record's value is its regional usage count divided by the global total of all
regions' usage counts, times 100, its method is `recalculated_percentage`,
and whenever the global total is positive the values sum to exactly 100. -/
theorem C6_recalculated_percentage (W : List (String × ℚ)) (data : List Row)
    (h : 0 < global_usage_total data) :
    ((((aggregate_by_region W data).filter
        (fun r => r.facet = "country" ∧ r.variable_name = "usage_pct")).map
      (fun r => r.value)).sum = 100) ∧
    ∀ rec ∈ (aggregate_by_region W data).filter
        (fun r => r.facet = "country" ∧ r.variable_name = "usage_pct"),
      rec.calculation_method = "recalculated_percentage" ∧
      rec.value = regional_usage_count data rec.region / global_usage_total data * 100 := by
  have htne : ¬ (allRegionCounts data (regionsOf data)).sum = 0 := by
    rw [show (allRegionCounts data (regionsOf data)).sum = global_usage_total data from rfl]
    exact ne_of_gt h
  have hout : aggregate_by_region W data =
      allRegionRecords W data (regionsOf data) ++
      ((allRegionRecords W data (regionsOf data)).filter
        (fun r => r.facet = "country" ∧ r.variable_name = "usage_count")).map
      (fun r => { r with
        variable_name := "usage_pct"
        value := r.value / (allRegionCounts data (regionsOf data)).sum * 100
        calculation_method := "recalculated_percentage"
        regional_weight := r.value }) := by
    rw [aggregate_by_region, calculate_country_facet_percentages]
    rw [if_neg htne]
  have hfilter : (aggregate_by_region W data).filter
      (fun r => r.facet = "country" ∧ r.variable_name = "usage_pct") =
      ((allRegionRecords W data (regionsOf data)).filter
        (fun r => r.facet = "country" ∧ r.variable_name = "usage_count")).map
      (fun r => { r with
        variable_name := "usage_pct"
        value := r.value / (allRegionCounts data (regionsOf data)).sum * 100
        calculation_method := "recalculated_percentage"
        regional_weight := r.value }) := by
    rw [hout, List.filter_append]
    have h1 : (allRegionRecords W data (regionsOf data)).filter
        (fun r => r.facet = "country" ∧ r.variable_name = "usage_pct") = [] := by
      rw [List.filter_eq_nil_iff]
      intro rec hrec
      have := all_no_pct W data (regionsOf data) rec hrec
      simpa using this
    have h2 : (((allRegionRecords W data (regionsOf data)).filter
        (fun r => r.facet = "country" ∧ r.variable_name = "usage_count")).map
        (fun r => { r with
          variable_name := "usage_pct"
          value := r.value / (allRegionCounts data (regionsOf data)).sum * 100
          calculation_method := "recalculated_percentage"
          regional_weight := r.value })).filter
        (fun r => r.facet = "country" ∧ r.variable_name = "usage_pct") =
        ((allRegionRecords W data (regionsOf data)).filter
        (fun r => r.facet = "country" ∧ r.variable_name = "usage_count")).map
        (fun r => { r with
          variable_name := "usage_pct"
          value := r.value / (allRegionCounts data (regionsOf data)).sum * 100
          calculation_method := "recalculated_percentage"
          regional_weight := r.value }) := by
      rw [List.filter_eq_self]
      intro rec hrec
      obtain ⟨r, hr, hfr⟩ := List.mem_map.mp hrec
      have hrcu := (List.mem_filter.mp hr).2
      rw [← hfr]
      have hfacet : r.facet = "country" := (of_decide_eq_true hrcu).1
      simp [hfacet]
    rw [h1, h2, List.nil_append]
  constructor
  · rw [hfilter, List.map_map]
    have hcongr : ((allRegionRecords W data (regionsOf data)).filter
        (fun r => r.facet = "country" ∧ r.variable_name = "usage_count")).map
        ((fun r => r.value) ∘ (fun r : AggRecord => { r with
          variable_name := "usage_pct"
          value := r.value / (allRegionCounts data (regionsOf data)).sum * 100
          calculation_method := "recalculated_percentage"
          regional_weight := r.value })) =
        ((allRegionRecords W data (regionsOf data)).filter
        (fun r => r.facet = "country" ∧ r.variable_name = "usage_count")).map
        (fun r => r.value * (100 / (allRegionCounts data (regionsOf data)).sum)) := by
      apply List.map_congr_left
      intro r _
      show r.value / (allRegionCounts data (regionsOf data)).sum * 100 = _
      ring
    rw [hcongr, List.sum_map_mul_right, all_cu_sum, ← counts_sum_eq]
    field_simp
  · intro rec hrec
    rw [hfilter] at hrec
    obtain ⟨r, hr, hfr⟩ := List.mem_map.mp hrec
    have hval := all_cu_mem W data (regionsOf data) r hr
    constructor
    · rw [← hfr]
    · rw [← hfr]
      show r.value / (allRegionCounts data (regionsOf data)).sum * 100 = _
      rw [show ({ r with
          variable_name := "usage_pct"
          value := r.value / (allRegionCounts data (regionsOf data)).sum * 100
          calculation_method := "recalculated_percentage"
          regional_weight := r.value } : AggRecord).region = r.region from rfl]
      rw [hval]
      rw [show global_usage_total data = (allRegionCounts data (regionsOf data)).sum from rfl]

/-- Two regions with usage counts 30 and 10, for the C6 witness. -/
def dataC6 : List Row :=
  [{ geo_id := "AA", region := "R1", facet := "country", level := "1",
     variable_name := "usage_count", cluster_name := "", value := 30 },
   { geo_id := "BB", region := "R2", facet := "country", level := "1",
     variable_name := "usage_count", cluster_name := "", value := 10 }]

lemma dataC6_total : global_usage_total dataC6 = 40 := by
  have h1 : regionsOf dataC6 = ["R1", "R2"] := by decide
  have hA : dataC6.filter (fun r => r.region = "R1") =
      [{ geo_id := "AA", region := "R1", facet := "country", level := "1",
         variable_name := "usage_count", cluster_name := "", value := 30 }] := by decide
  have hB : dataC6.filter (fun r => r.region = "R2") =
      [{ geo_id := "BB", region := "R2", facet := "country", level := "1",
         variable_name := "usage_count", cluster_name := "", value := 10 }] := by decide
  have hc1 : region_count dataC6 "R1" = some 30 := by
    rw [region_count, hA]
    have := aggregate_country_facet_usage
      [{ geo_id := "AA", region := "R1", facet := "country", level := "1",
         variable_name := "usage_count", cluster_name := "", value := 30 }] "R1"
      { geo_id := "AA", region := "R1", facet := "country", level := "1",
        variable_name := "usage_count", cluster_name := "", value := 30 } [] (by decide)
    rw [this]
    show some ((30 : ℚ) + 0) = some 30
    norm_num
  have hc2 : region_count dataC6 "R2" = some 10 := by
    rw [region_count, hB]
    have := aggregate_country_facet_usage
      [{ geo_id := "BB", region := "R2", facet := "country", level := "1",
         variable_name := "usage_count", cluster_name := "", value := 10 }] "R2"
      { geo_id := "BB", region := "R2", facet := "country", level := "1",
        variable_name := "usage_count", cluster_name := "", value := 10 } [] (by decide)
    rw [this]
    show some ((10 : ℚ) + 0) = some 10
    norm_num
  rw [global_usage_total, h1]
  show (match region_count dataC6 "R1" with
    | none => allRegionCounts dataC6 ["R2"]
    | some v => v :: allRegionCounts dataC6 ["R2"]).sum = (40 : ℚ)
  rw [hc1]
  show ((30 : ℚ) :: (match region_count dataC6 "R2" with
    | none => allRegionCounts dataC6 []
    | some v => v :: allRegionCounts dataC6 [])).sum = (40 : ℚ)
  rw [hc2]
  show ((30 : ℚ) + (10 + 0)) = 40
  norm_num

/-- Witness for C6 at the two-region table (global total 40 > 0). -/
theorem C6_witness :
    ((((aggregate_by_region Wex dataC6).filter
        (fun r => r.facet = "country" ∧ r.variable_name = "usage_pct")).map
      (fun r => r.value)).sum = 100) ∧
    ∀ rec ∈ (aggregate_by_region Wex dataC6).filter
        (fun r => r.facet = "country" ∧ r.variable_name = "usage_pct"),
      rec.calculation_method = "recalculated_percentage" ∧
      rec.value = regional_usage_count dataC6 rec.region / global_usage_total dataC6 * 100 :=
  C6_recalculated_percentage Wex dataC6 (by rw [dataC6_total]; norm_num)

